import Mathlib

/-!
Verification development for the `Runner` training/evaluation orchestrator of
the ASP repository (`src/util/runner.py`), together with the small helpers it
relies on.  Python code is shallowly embedded: the mutable loop state of
`Runner.train` becomes an explicit state record threaded through a fold over
the mini-batches, file-system interaction becomes an explicit environment
record, and fallible operations return `Except`.  Scalar losses and scores are
modelled as rationals.
-/

set_option maxHeartbeats 1000000

namespace ASP

/-! General list helpers used by several invariance proofs below. -/

theorem getD_append_lt {α : Type} (d : α) :
    ∀ (l l' : List α) (i : Nat), i < l.length → (l ++ l').getD i d = l.getD i d
  | [], _, i, h => absurd h (by simp)
  | _ :: _, _, 0, _ => rfl
  | _ :: l, l', i + 1, h => getD_append_lt d l l' i (Nat.lt_of_succ_lt_succ h)

theorem getD_concat_self {α : Type} (d a : α) :
    ∀ l : List α, (l ++ [a]).getD l.length d = a
  | [] => rfl
  | _ :: l => getD_concat_self d a l

namespace Train

/--
Configuration keys of `Runner.train` that drive the control flow of the epoch
loop (`src/util/runner.py`, lines 100-101 and the `report_frequency` /
`eval_frequency` reads at lines 181 and 194).
-/
structure Config where
  num_epochs : Nat
  batch_size : Nat
  gradient_accumulation_steps : Nat
  report_frequency : Nat
  eval_frequency : Nat

/--
Record of one call to `self.evaluate(wrapper, examples_dev, ...)` inside the
epoch loop (lines 194-208): the number of `optimizer.step()` calls completed
when the evaluation ran, the scheduler's `_step_count` at that moment, the dev
f1 returned, and whether `save_model_checkpoint` was invoked at this
evaluation.
-/
structure EvalRec where
  at_opt_step : Nat
  at_sched_count : Nat
  score : ℚ
  saved : Bool

/-- Default `EvalRec` used with `List.getD`. -/
def evalRecD : EvalRec := ⟨0, 0, 0, false⟩

/--
Mutable state of the epoch loop of `Runner.train` (lines 125-131), plus two
derived observation fields: `opt_steps` counts the `optimizer.step()` calls
performed, and `eval_log` records every evaluation performed (these are not
Python variables; they log events of the run so that properties about them can
be stated).  `sched_step_count` models `self.scheduler._step_count`.
-/
structure TrainState where
  loss_during_accum : List ℚ
  loss_during_report : ℚ
  loss_history : List ℚ
  max_f1 : ℚ
  best_ckpt_step_count : Nat
  opt_steps : Nat
  sched_step_count : Nat
  eval_log : List EvalRec

/--
State at the start of training (lines 125-131).  `sched_step_count` starts at
1, not 0: `torch.optim.lr_scheduler.LRScheduler.__init__` (and hence
`LambdaLR`, built by `Runner.get_scheduler`) ends by calling `self.step()`
once via `_initial_step`, which increments `_step_count` from 0 to 1, so the
value logged at line 123 for a fresh run is 1 and after the k-th training-loop
`scheduler.step()` the counter reads k + 1.
-/
def initState : TrainState where
  loss_during_accum := []
  loss_during_report := 0
  loss_history := []
  max_f1 := 0
  best_ckpt_step_count := 0
  opt_steps := 0
  sched_step_count := 1
  eval_log := []

/--
One iteration of the inner `for doc_key, example in trainloader` loop of
`Runner.train` (lines 142-212), for a mini-batch whose model loss (before the
division at line 152) is `rawLoss`.  `score n` is the dev f1 returned by the
abstract task-specific `self.evaluate` on its (n+1)-st call; `Runner.evaluate`
itself is abstract (line 251), so the scores form an oracle.  Faithful points:
the loss appended to `loss_during_accum` is already divided by
`gradient_accumulation_steps` (line 152); the update fires when the length of
`loss_during_accum` is a multiple of `gradient_accumulation_steps` (line 158,
and since the buffer is emptied at each update, exactly when it reaches that
length); the effective loss is the sum of the buffered scaled losses (line
175); report and evaluation are gated on `scheduler._step_count` after the
`scheduler.step()` of line 171; a checkpoint is saved only when
`f1 > max_f1` (line 202), in which case `max_f1 = max(max_f1, f1)` and
`best_ckpt_step_count = scheduler._step_count` (lines 203-208).  Gradient
clipping (lines 159-169) only touches gradients, which are outside this
state.
-/
def microStep (cfg : Config) (score : Nat → ℚ) (st : TrainState) (rawLoss : ℚ) :
    TrainState :=
  if (st.loss_during_accum
        ++ [rawLoss / (cfg.gradient_accumulation_steps : ℚ)]).length
      % cfg.gradient_accumulation_steps = 0 then
    if (st.sched_step_count + 1) % cfg.eval_frequency = 0 then
      { loss_during_accum := []
        loss_during_report :=
          if (st.sched_step_count + 1) % cfg.report_frequency = 0 then 0
          else st.loss_during_report
            + (st.loss_during_accum
                ++ [rawLoss / (cfg.gradient_accumulation_steps : ℚ)]).sum
        loss_history := st.loss_history
          ++ [(st.loss_during_accum
                ++ [rawLoss / (cfg.gradient_accumulation_steps : ℚ)]).sum]
        max_f1 := if st.max_f1 < score st.eval_log.length
          then max st.max_f1 (score st.eval_log.length) else st.max_f1
        best_ckpt_step_count := if st.max_f1 < score st.eval_log.length
          then st.sched_step_count + 1 else st.best_ckpt_step_count
        opt_steps := st.opt_steps + 1
        sched_step_count := st.sched_step_count + 1
        eval_log := st.eval_log
          ++ [⟨st.opt_steps + 1, st.sched_step_count + 1,
               score st.eval_log.length,
               decide (st.max_f1 < score st.eval_log.length)⟩] }
    else
      { loss_during_accum := []
        loss_during_report :=
          if (st.sched_step_count + 1) % cfg.report_frequency = 0 then 0
          else st.loss_during_report
            + (st.loss_during_accum
                ++ [rawLoss / (cfg.gradient_accumulation_steps : ℚ)]).sum
        loss_history := st.loss_history
          ++ [(st.loss_during_accum
                ++ [rawLoss / (cfg.gradient_accumulation_steps : ℚ)]).sum]
        max_f1 := st.max_f1
        best_ckpt_step_count := st.best_ckpt_step_count
        opt_steps := st.opt_steps + 1
        sched_step_count := st.sched_step_count + 1
        eval_log := st.eval_log }
  else
    { st with
      loss_during_accum := st.loss_during_accum
        ++ [rawLoss / (cfg.gradient_accumulation_steps : ℚ)] }

/--
Run of the epoch loop of `Runner.train` on a fresh (not `continued`) run:
`losses` is the flat sequence of per-mini-batch model losses across all
epochs, in the order the shuffled loader yields them.  The accumulation
buffer, the scheduler and every other state component persist across epoch
boundaries in the Python code, so the flat fold is exact.
-/
def runTrain (cfg : Config) (score : Nat → ℚ) (losses : List ℚ) : TrainState :=
  losses.foldl (microStep cfg score) initState

/--
Number of mini-batches per epoch produced by the `DataLoader` of line 133
(`drop_last` is left at its default `False`, so the last short batch is kept).
-/
def numBatches (numExamples batch_size : Nat) : Nat :=
  (numExamples + batch_size - 1) / batch_size

/-- Update-branch characterisation of `microStep`: when the buffer reaches a
multiple of `gradient_accumulation_steps`, the optimizer and scheduler step
once, the buffer is emptied and the effective loss (the sum of the buffered
scaled losses) is appended to `loss_history`, in every inner branch. -/
theorem microStep_update (cfg : Config) (score : Nat → ℚ) (st : TrainState)
    (rawLoss : ℚ)
    (hcond : (st.loss_during_accum
        ++ [rawLoss / (cfg.gradient_accumulation_steps : ℚ)]).length
      % cfg.gradient_accumulation_steps = 0) :
    (microStep cfg score st rawLoss).opt_steps = st.opt_steps + 1 ∧
    (microStep cfg score st rawLoss).sched_step_count
      = st.sched_step_count + 1 ∧
    (microStep cfg score st rawLoss).loss_during_accum = [] ∧
    (microStep cfg score st rawLoss).loss_history
      = st.loss_history
        ++ [(st.loss_during_accum
              ++ [rawLoss / (cfg.gradient_accumulation_steps : ℚ)]).sum] := by
  unfold microStep
  rw [if_pos hcond]
  split <;> exact ⟨rfl, rfl, rfl, rfl⟩

/-- Accumulation-branch characterisation of `microStep`: between updates only
the buffer grows (by the already-scaled loss of line 152). -/
theorem microStep_noupdate (cfg : Config) (score : Nat → ℚ) (st : TrainState)
    (rawLoss : ℚ)
    (hcond : ¬ ((st.loss_during_accum
        ++ [rawLoss / (cfg.gradient_accumulation_steps : ℚ)]).length
      % cfg.gradient_accumulation_steps = 0)) :
    microStep cfg score st rawLoss
      = { st with
          loss_during_accum := st.loss_during_accum
            ++ [rawLoss / (cfg.gradient_accumulation_steps : ℚ)] } := by
  unfold microStep
  rw [if_neg hcond]

/--
Model-selection invariant of the epoch loop: `max_f1` is the maximum of 0 (its
initialisation at line 128) and all dev scores returned so far, the i-th
logged evaluation carries the oracle's i-th score, and a checkpoint was saved
at an evaluation exactly when its score strictly exceeded the maximum of 0 and
all earlier scores.
-/
def SelInv (score : Nat → ℚ) (st : TrainState) : Prop :=
  st.max_f1 = (st.eval_log.map EvalRec.score).foldl max 0 ∧
  (∀ i, i < st.eval_log.length →
    (st.eval_log.getD i evalRecD).score = score i) ∧
  (∀ i, i < st.eval_log.length →
    ((st.eval_log.getD i evalRecD).saved = true ↔
      ((st.eval_log.map EvalRec.score).take i).foldl max 0
        < (st.eval_log.getD i evalRecD).score))

theorem selInv_init (score : Nat → ℚ) : SelInv score initState := by
  refine ⟨rfl, ?_, ?_⟩ <;> intro i hi <;> simp [initState] at hi

theorem selInv_microStep (cfg : Config) (score : Nat → ℚ) (st : TrainState)
    (x : ℚ) (h : SelInv score st) : SelInv score (microStep cfg score st x) := by
  obtain ⟨hmax, hscore, hsaved⟩ := h
  unfold microStep
  split
  · split
    · -- update step with evaluation: one record is appended to the log
      refine ⟨?_, ?_, ?_⟩
      · show (if st.max_f1 < score st.eval_log.length
            then max st.max_f1 (score st.eval_log.length) else st.max_f1)
          = ((st.eval_log
              ++ [(⟨st.opt_steps + 1, st.sched_step_count + 1,
                   score st.eval_log.length,
                   decide (st.max_f1 < score st.eval_log.length)⟩ : EvalRec)]).map
                EvalRec.score).foldl max 0
        rw [List.map_append, List.foldl_append]
        show _ = max ((st.eval_log.map EvalRec.score).foldl max 0)
          (score st.eval_log.length)
        rw [← hmax]
        split
        · rfl
        · exact (max_eq_left (not_lt.mp (by assumption))).symm
      · intro i hi
        simp only [List.length_append, List.length_cons, List.length_nil] at hi
        rcases Nat.lt_succ_iff_lt_or_eq.mp hi with hlt | heq
        · show ((st.eval_log ++ [_]).getD i evalRecD).score = score i
          rw [getD_append_lt _ _ _ _ hlt]
          exact hscore i hlt
        · subst heq
          show ((st.eval_log ++ [_]).getD st.eval_log.length evalRecD).score
            = score st.eval_log.length
          rw [getD_concat_self]
      · intro i hi
        simp only [List.length_append, List.length_cons, List.length_nil] at hi
        rcases Nat.lt_succ_iff_lt_or_eq.mp hi with hlt | heq
        · show ((st.eval_log ++ [_]).getD i evalRecD).saved = true ↔
            (((st.eval_log ++ [_]).map EvalRec.score).take i).foldl max 0
              < ((st.eval_log ++ [_]).getD i evalRecD).score
          rw [getD_append_lt _ _ _ _ hlt, List.map_append,
            List.take_append_of_le_length (by simpa using Nat.le_of_lt hlt)]
          exact hsaved i hlt
        · subst heq
          show ((st.eval_log ++ [_]).getD st.eval_log.length evalRecD).saved
              = true ↔
            (((st.eval_log ++ [_]).map EvalRec.score).take
                st.eval_log.length).foldl max 0
              < ((st.eval_log ++ [_]).getD st.eval_log.length evalRecD).score
          rw [getD_concat_self, List.map_append,
            List.take_append_of_le_length (by simp)]
          have htake : (st.eval_log.map EvalRec.score).take st.eval_log.length
              = st.eval_log.map EvalRec.score := by
            rw [← List.length_map st.eval_log EvalRec.score, List.take_length]
          rw [htake, ← hmax]
          simp [decide_eq_true_eq]
    · -- update step without evaluation: log and best score unchanged
      exact ⟨hmax, hscore, hsaved⟩
  · -- accumulation step: log and best score unchanged
    exact ⟨hmax, hscore, hsaved⟩

theorem selInv_foldl (cfg : Config) (score : Nat → ℚ) :
    ∀ (losses : List ℚ) (st : TrainState), SelInv score st →
      SelInv score (losses.foldl (microStep cfg score) st)
  | [], _, h => h
  | x :: rest, st, h =>
    selInv_foldl cfg score rest (microStep cfg score st x)
      (selInv_microStep cfg score st x h)

theorem selInv_run (cfg : Config) (score : Nat → ℚ) (losses : List ℚ) :
    SelInv score (runTrain cfg score losses) :=
  selInv_foldl cfg score losses initState (selInv_init score)

/--
Gradient-accumulation invariant of the epoch loop after processing the
mini-batch losses `processed` with accumulation factor `k`: the optimizer has
stepped once per completed window of `k` mini-batches, `loss_history` has one
entry per optimizer step, the buffer holds the scaled losses of the current
incomplete window, and the j-th recorded effective loss is the sum of the k
scaled losses of the j-th window.
-/
def AccumInv (k : Nat) (processed : List ℚ) (st : TrainState) : Prop :=
  st.opt_steps = processed.length / k ∧
  st.loss_history.length = processed.length / k ∧
  st.loss_during_accum
    = (processed.drop (processed.length / k * k)).map (fun y => y / (k : ℚ)) ∧
  ∀ j, j < st.loss_history.length →
    st.loss_history.getD j 0
      = (((processed.drop (j * k)).take k).map (fun y => y / (k : ℚ))).sum

theorem accumInv_init (k : Nat) : AccumInv k [] initState := by
  refine ⟨by simp [initState], by simp [initState], by simp [initState], ?_⟩
  intro j hj
  simp [initState] at hj

theorem window_stable {α : Type} (l : List α) (x : α) (j k : Nat)
    (hjk : j * k + k ≤ l.length) :
    ((l ++ [x]).drop (j * k)).take k = (l.drop (j * k)).take k := by
  rw [List.drop_append_of_le_length (le_trans (Nat.le_add_right _ _) hjk),
    List.take_append_of_le_length]
  rw [List.length_drop]
  omega

theorem window_in_range (n k : Nat) (j : Nat) (hj : j < n / k) :
    j * k + k ≤ n := by
  have h1 : (j + 1) * k ≤ n / k * k := Nat.mul_le_mul_right k (Nat.succ_le_of_lt hj)
  have h2 : n / k * k ≤ n := Nat.div_mul_le_self n k
  calc j * k + k = (j + 1) * k := by ring
  _ ≤ n / k * k := h1
  _ ≤ n := h2

theorem accumInv_microStep (cfg : Config) (score : Nat → ℚ) (x : ℚ)
    (processed : List ℚ) (st : TrainState)
    (hk : 0 < cfg.gradient_accumulation_steps)
    (h : AccumInv cfg.gradient_accumulation_steps processed st) :
    AccumInv cfg.gradient_accumulation_steps (processed ++ [x])
      (microStep cfg score st x) := by
  obtain ⟨h1, h2, h3, h4⟩ := h
  set k := cfg.gradient_accumulation_steps with hkdef
  have hq : processed.length / k * k + processed.length % k = processed.length :=
    Nat.div_add_mod' _ _
  have hrk : processed.length % k < k := Nat.mod_lt _ hk
  have hbuflen : st.loss_during_accum.length = processed.length % k := by
    rw [h3, List.length_map, List.length_drop]
    omega
  have hlenapp : (st.loss_during_accum ++ [x / (k : ℚ)]).length
      = processed.length % k + 1 := by
    simp [hbuflen]
  by_cases hcase : processed.length % k + 1 = k
  · -- the accumulation window is complete: the update of lines 158-178 fires
    have hcond : (st.loss_during_accum ++ [x / (k : ℚ)]).length % k = 0 := by
      rw [hlenapp, hcase, Nat.mod_self]
    obtain ⟨ho, hs, hb, hh⟩ := microStep_update cfg score st x hcond
    have hn1 : processed.length + 1 = (processed.length / k + 1) * k := by
      rw [Nat.succ_mul]
      omega
    have hdiv : (processed.length + 1) / k = processed.length / k + 1 := by
      rw [hn1, Nat.mul_div_cancel _ hk]
    refine ⟨?_, ?_, ?_, ?_⟩
    · rw [ho, h1]
      simp only [List.length_append, List.length_cons, List.length_nil]
      rw [hdiv]
    · rw [hh]
      simp only [List.length_append, List.length_cons, List.length_nil]
      rw [h2, hdiv]
    · rw [hb]
      simp only [List.length_append, List.length_cons, List.length_nil]
      rw [hdiv, ← hn1]
      have hlen2 : processed.length + 1 = (processed ++ [x]).length := by simp
      rw [hlen2, List.drop_length]
      simp
    · intro j hj
      rw [hh] at hj ⊢
      rw [List.length_append, List.length_cons, List.length_nil] at hj
      rcases Nat.lt_succ_iff_lt_or_eq.mp hj with hlt | heq
      · rw [getD_append_lt _ _ _ _ hlt, h4 j hlt,
          window_stable processed x j k
            (window_in_range processed.length k j (h2 ▸ hlt))]
      · subst heq
        rw [getD_concat_self, h2,
          List.drop_append_of_le_length (Nat.div_mul_le_self _ _)]
        generalize hA : List.drop (processed.length / k * k) processed = A at h3
        have hAlen : A.length = processed.length % k := by
          rw [← List.length_map A (fun y => y / (k : ℚ)), ← h3, hbuflen]
        have htake : (A ++ [x]).take k = A ++ [x] := by
          have hfull : (A ++ [x]).length = k := by
            simp only [List.length_append, List.length_cons, List.length_nil,
              hAlen]
            omega
          rw [← hfull, List.take_length]
        rw [htake, List.map_append, h3]
        simp
  · -- the window is incomplete: only the buffer grows (line 155)
    have hmod : (st.loss_during_accum ++ [x / (k : ℚ)]).length % k
        = processed.length % k + 1 := by
      rw [hlenapp, Nat.mod_eq_of_lt (by omega)]
    have hcond : ¬ ((st.loss_during_accum ++ [x / (k : ℚ)]).length % k = 0) := by
      rw [hmod]
      omega
    rw [microStep_noupdate cfg score st x hcond]
    have hdivB : (processed.length + 1) / k = processed.length / k := by
      have h5 : processed.length + 1
          = (processed.length % k + 1) + processed.length / k * k := by omega
      rw [h5, Nat.add_mul_div_right _ _ hk,
        Nat.div_eq_of_lt (by omega), Nat.zero_add]
    refine ⟨?_, ?_, ?_, ?_⟩
    · show st.opt_steps = (processed ++ [x]).length / k
      simp only [List.length_append, List.length_cons, List.length_nil]
      rw [hdivB]
      exact h1
    · show st.loss_history.length = (processed ++ [x]).length / k
      simp only [List.length_append, List.length_cons, List.length_nil]
      rw [hdivB]
      exact h2
    · show st.loss_during_accum ++ [x / (k : ℚ)]
        = ((processed ++ [x]).drop ((processed ++ [x]).length / k * k)).map
            (fun y => y / (k : ℚ))
      simp only [List.length_append, List.length_cons, List.length_nil]
      rw [hdivB,
        List.drop_append_of_le_length (Nat.div_mul_le_self _ _),
        List.map_append, h3]
      simp
    · intro j hj
      show st.loss_history.getD j 0
        = ((((processed ++ [x]).drop (j * k)).take k).map
            (fun y => y / (k : ℚ))).sum
      rw [h4 j hj,
        window_stable processed x j k
          (window_in_range processed.length k j (h2 ▸ hj))]

theorem accumInv_foldl (cfg : Config) (score : Nat → ℚ)
    (hk : 0 < cfg.gradient_accumulation_steps) :
    ∀ (suffix processed : List ℚ) (st : TrainState),
      AccumInv cfg.gradient_accumulation_steps processed st →
      AccumInv cfg.gradient_accumulation_steps (processed ++ suffix)
        (suffix.foldl (microStep cfg score) st)
  | [], processed, st, h => by simpa using h
  | x :: rest, processed, st, h => by
    have hstep := accumInv_microStep cfg score x processed st hk h
    have hrest := accumInv_foldl cfg score hk rest (processed ++ [x])
      (microStep cfg score st x) hstep
    simpa [List.append_assoc] using hrest

theorem accumInv_run (cfg : Config) (score : Nat → ℚ) (losses : List ℚ)
    (hk : 0 < cfg.gradient_accumulation_steps) :
    AccumInv cfg.gradient_accumulation_steps losses
      (runTrain cfg score losses) := by
  have h := accumInv_foldl cfg score hk losses [] initState
    (accumInv_init cfg.gradient_accumulation_steps)
  simpa using h

/--
C1: during `Runner.train`, `save_model_checkpoint` is invoked at an
evaluation exactly when the dev score returned by the evaluator strictly
exceeds the maximum of all dev scores from earlier evaluations of the run,
with the running best initialised to 0 (line 128); consequently a score of
zero, or any score not exceeding the running best, never triggers a
checkpoint write (lines 202-208).
-/
theorem checkpoint_iff_strict_new_best (cfg : Train.Config)
    (score : Nat → ℚ) (losses : List ℚ) (i : Nat)
    (hi : i < (Train.runTrain cfg score losses).eval_log.length) :
    (((Train.runTrain cfg score losses).eval_log.getD i
        Train.evalRecD).saved = true ↔
      (((Train.runTrain cfg score losses).eval_log.map
          Train.EvalRec.score).take i).foldl max 0
        < ((Train.runTrain cfg score losses).eval_log.getD i
            Train.evalRecD).score) :=
  (Train.selInv_run cfg score losses).2.2 i hi

/-- Witness for C1 on a concrete two-batch run whose single evaluation
returns score 1 and triggers a checkpoint. -/
theorem checkpoint_iff_strict_new_best_witness :
    0 < (Train.runTrain ⟨1, 2, 1, 100, 2⟩ (fun _ => 1)
        [0, 0]).eval_log.length ∧
    (((Train.runTrain ⟨1, 2, 1, 100, 2⟩ (fun _ => 1) [0, 0]).eval_log.getD 0
        Train.evalRecD).saved = true ↔
      (((Train.runTrain ⟨1, 2, 1, 100, 2⟩ (fun _ => 1) [0, 0]).eval_log.map
          Train.EvalRec.score).take 0).foldl max 0
        < ((Train.runTrain ⟨1, 2, 1, 100, 2⟩ (fun _ => 1) [0, 0]).eval_log.getD
            0 Train.evalRecD).score) := by
  have hlen : 0 < (Train.runTrain ⟨1, 2, 1, 100, 2⟩ (fun _ => 1)
      [0, 0]).eval_log.length := by
    simp [Train.runTrain, Train.microStep, Train.initState]
  exact ⟨hlen,
    checkpoint_iff_strict_new_best ⟨1, 2, 1, 100, 2⟩ (fun _ => 1) [0, 0] 0 hlen⟩

/--
C2 counterexample: in the scenario with `num_epochs = 1`, `batch_size = 2`,
4 training examples (hence 2 mini-batches), `gradient_accumulation_steps = 1`
and `eval_frequency = 2`, the single evaluation does NOT occur after the 2nd
optimizer step: `scheduler._step_count` is already 1 after `LambdaLR`
construction, so the gate of line 194 fires when the counter reads 2, i.e.
right after the 1st optimizer step.
-/
theorem eval_after_first_step_cex :
    ¬ ((Train.runTrain ⟨1, 2, 1, 100, 2⟩ (fun _ => 1) [1, 1]).eval_log.map
        Train.EvalRec.at_opt_step = [2]) := by
  have h : (Train.runTrain ⟨1, 2, 1, 100, 2⟩ (fun _ => 1) [1, 1]).eval_log.map
      Train.EvalRec.at_opt_step = [1] := by
    simp [Train.runTrain, Train.microStep, Train.initState]
  rw [h]
  simp

/--
C2 amended: under `num_epochs = 1`, `batch_size = 2`, 4 training examples
(2 mini-batches, `numBatches 4 2 = 2`), `gradient_accumulation_steps = 1` and
`eval_frequency = 2`, `Runner.train` performs exactly 2 optimizer steps and
exactly 1 evaluator call, and that evaluation occurs after the 1st optimizer
step (not the 2nd), because the scheduler step counter that gates evaluation
starts at 1 and therefore reads k + 1 after the k-th optimizer step.
-/
theorem two_steps_one_eval_after_first (l0 l1 : ℚ) (score : Nat → ℚ) :
    Train.numBatches 4 2 = 2 ∧
    (Train.runTrain ⟨1, 2, 1, 100, 2⟩ score [l0, l1]).opt_steps = 2 ∧
    (Train.runTrain ⟨1, 2, 1, 100, 2⟩ score [l0, l1]).eval_log.map
        Train.EvalRec.at_opt_step = [1] := by
  refine ⟨rfl, ?_, ?_⟩ <;>
    simp [Train.runTrain, Train.microStep, Train.initState]

/--
C3: for `gradient_accumulation_steps = k > 1`, the global update-step count
advances exactly once per k consecutive mini-batches (after N mini-batches it
equals N / k), and the effective loss recorded in `loss_history` for the j-th
completed accumulation window is the sum of the k per-micro-step losses of
that window, each per-micro-step loss being the model loss already divided by
k (line 152).
-/
theorem grad_accum_window_loss (cfg : Train.Config) (score : Nat → ℚ)
    (losses : List ℚ) (h : 1 < cfg.gradient_accumulation_steps) :
    (Train.runTrain cfg score losses).opt_steps
        = losses.length / cfg.gradient_accumulation_steps ∧
    (Train.runTrain cfg score losses).loss_history.length
        = losses.length / cfg.gradient_accumulation_steps ∧
    ∀ j, j < (Train.runTrain cfg score losses).loss_history.length →
      (Train.runTrain cfg score losses).loss_history.getD j 0
        = (((losses.drop (j * cfg.gradient_accumulation_steps)).take
              cfg.gradient_accumulation_steps).map
            (fun y => y / (cfg.gradient_accumulation_steps : ℚ))).sum := by
  obtain ⟨h1, h2, _, h4⟩ :=
    Train.accumInv_run cfg score losses (Nat.zero_lt_of_lt h)
  exact ⟨h1, h2, h4⟩

/-- Witness for C3 on a concrete run with k = 2 and three mini-batches. -/
theorem grad_accum_window_loss_witness :
    1 < (⟨1, 2, 2, 100, 2⟩ : Train.Config).gradient_accumulation_steps ∧
    ((Train.runTrain ⟨1, 2, 2, 100, 2⟩ (fun _ => 1) [1, 3, 5]).opt_steps
        = [(1 : ℚ), 3, 5].length
          / (⟨1, 2, 2, 100, 2⟩ : Train.Config).gradient_accumulation_steps ∧
     (Train.runTrain ⟨1, 2, 2, 100, 2⟩ (fun _ => 1)
          [1, 3, 5]).loss_history.length
        = [(1 : ℚ), 3, 5].length
          / (⟨1, 2, 2, 100, 2⟩ : Train.Config).gradient_accumulation_steps ∧
     ∀ j, j < (Train.runTrain ⟨1, 2, 2, 100, 2⟩ (fun _ => 1)
          [1, 3, 5]).loss_history.length →
       (Train.runTrain ⟨1, 2, 2, 100, 2⟩ (fun _ => 1)
            [1, 3, 5]).loss_history.getD j 0
         = ((([(1 : ℚ), 3, 5].drop
               (j * (⟨1, 2, 2, 100, 2⟩ : Train.Config).gradient_accumulation_steps)).take
               (⟨1, 2, 2, 100, 2⟩ : Train.Config).gradient_accumulation_steps).map
             (fun y =>
               y / ((⟨1, 2, 2, 100, 2⟩ :
                   Train.Config).gradient_accumulation_steps : ℚ))).sum) :=
  ⟨by decide,
   grad_accum_window_loss ⟨1, 2, 2, 100, 2⟩ (fun _ => 1) [1, 3, 5] (by decide)⟩

/--
C4: with `gradient_accumulation_steps = 1` the optimizer steps exactly once
per mini-batch: after processing N mini-batches the global update-step count
equals N.
-/
theorem one_step_per_batch (cfg : Train.Config) (score : Nat → ℚ)
    (losses : List ℚ) (h : cfg.gradient_accumulation_steps = 1) :
    (Train.runTrain cfg score losses).opt_steps = losses.length := by
  have h1 := (Train.accumInv_run cfg score losses
    (by rw [h]; exact Nat.one_pos)).1
  rw [h1, h, Nat.div_one]

/-- Witness for C4 on a concrete two-batch run. -/
theorem one_step_per_batch_witness :
    (⟨1, 2, 1, 100, 2⟩ : Train.Config).gradient_accumulation_steps = 1 ∧
    (Train.runTrain ⟨1, 2, 1, 100, 2⟩ (fun _ => 0) [0, 0]).opt_steps
      = [(0 : ℚ), 0].length :=
  ⟨rfl, one_step_per_batch ⟨1, 2, 1, 100, 2⟩ (fun _ => 0) [0, 0] rfl⟩

/--
C10: throughout `Runner.train`, `loss_history` gains exactly one entry per
completed optimizer update (lines 170 and 178 sit in the same guarded block),
so after any processed sequence of mini-batches its length equals the number
of `optimizer.step()` calls performed since training started.
-/
theorem loss_history_counts_updates (cfg : Train.Config) (score : Nat → ℚ)
    (losses : List ℚ) (h : 0 < cfg.gradient_accumulation_steps) :
    (Train.runTrain cfg score losses).loss_history.length
      = (Train.runTrain cfg score losses).opt_steps := by
  obtain ⟨h1, h2, _, _⟩ := Train.accumInv_run cfg score losses h
  rw [h1, h2]

/-- Witness for C10 on a concrete run with k = 2 and three mini-batches. -/
theorem loss_history_counts_updates_witness :
    0 < (⟨1, 2, 2, 100, 2⟩ : Train.Config).gradient_accumulation_steps ∧
    (Train.runTrain ⟨1, 2, 2, 100, 2⟩ (fun _ => 0)
        [1, 2, 3]).loss_history.length
      = (Train.runTrain ⟨1, 2, 2, 100, 2⟩ (fun _ => 0) [1, 2, 3]).opt_steps :=
  ⟨by decide,
   loss_history_counts_updates ⟨1, 2, 2, 100, 2⟩ (fun _ => 0) [1, 2, 3]
     (by decide)⟩

end Train

namespace Optim

/-- Occurrence of `nd` at the head of the second list (character-wise). -/
def matchHere : List Char → List Char → Bool
  | [], _ => true
  | _ :: _, [] => false
  | c :: cs, d :: ds => c == d && matchHere cs ds

/-- Python substring containment `nd in hay` for strings, on their character
lists. -/
def occursIn (nd : List Char) : List Char → Bool
  | [] => matchHere nd []
  | c :: cs => matchHere nd (c :: cs) || occursIn nd cs

/-- The `no_decay` pattern list of `Runner.get_optimizer`
(`src/util/runner.py`, line 255). -/
def no_decay : List String := ["bias", "LayerNorm.weight", "layer_norm.weight"]

/-- Python `any(nd in n for nd in no_decay)` (lines 260 and 264). -/
def matchesNoDecay (n : String) : Bool :=
  no_decay.any (fun nd => occursIn nd.data n.data)

/-- One entry of the `grouped_param` list handed to `AdamW` (lines 258-272):
its parameters, learning rate and weight decay. -/
structure ParamGroup (P : Type) where
  params : List P
  lr : ℚ
  weight_decay : ℚ

/-- Learning-rate/decay configuration keys read by `get_optimizer`. -/
structure OptimCfg where
  plm_learning_rate : ℚ
  task_learning_rate : ℚ
  adam_weight_decay : ℚ

/-- The `grouped_param` list of `Runner.get_optimizer` (lines 258-272), over
named encoder parameters `plm_param` and named task-head parameters
`task_param` with parameter values of type `P`. -/
def grouped_param {P : Type} (cfg : OptimCfg)
    (plm_param task_param : List (String × P)) : List (ParamGroup P) :=
  [ { params := (plm_param.filter
        (fun np => ! matchesNoDecay np.1)).map (fun np => np.2)
      lr := cfg.plm_learning_rate
      weight_decay := cfg.adam_weight_decay },
    { params := (plm_param.filter
        (fun np => matchesNoDecay np.1)).map (fun np => np.2)
      lr := cfg.plm_learning_rate
      weight_decay := 0 },
    { params := task_param.map (fun np => np.2)
      lr := cfg.task_learning_rate
      weight_decay := 0 } ]

/--
C8: `get_optimizer` builds exactly three parameter groups; every named
encoder parameter lands in the encoder weight-decay group when its name
contains no `no_decay` substring and in the encoder no-weight-decay group
when it does (and those two groups contain nothing else); every task-head
parameter lands in the third group, which carries the task learning rate and
zero weight decay.  In particular `"encoder.layer.0.bias"` matches the
pattern `"bias"` and `"encoder.layer.0.weight"` matches none.
-/
theorem grouped_param_groups {P : Type} (cfg : OptimCfg)
    (plm_param task_param : List (String × P)) :
    ∃ g0 g1 g2, grouped_param cfg plm_param task_param = [g0, g1, g2] ∧
      (grouped_param cfg plm_param task_param).length = 3 ∧
      g0.lr = cfg.plm_learning_rate ∧ g0.weight_decay = cfg.adam_weight_decay ∧
      g1.lr = cfg.plm_learning_rate ∧ g1.weight_decay = 0 ∧
      g2.lr = cfg.task_learning_rate ∧ g2.weight_decay = 0 ∧
      (∀ n p, (n, p) ∈ plm_param → matchesNoDecay n = true → p ∈ g1.params) ∧
      (∀ n p, (n, p) ∈ plm_param → matchesNoDecay n = false → p ∈ g0.params) ∧
      (∀ p, p ∈ g0.params →
        ∃ n, (n, p) ∈ plm_param ∧ matchesNoDecay n = false) ∧
      (∀ p, p ∈ g1.params →
        ∃ n, (n, p) ∈ plm_param ∧ matchesNoDecay n = true) ∧
      (∀ n p, (n, p) ∈ task_param → p ∈ g2.params) ∧
      matchesNoDecay "encoder.layer.0.bias" = true ∧
      matchesNoDecay "encoder.layer.0.weight" = false := by
  refine ⟨_, _, _, rfl, rfl, rfl, rfl, rfl, rfl, rfl, rfl,
    ?_, ?_, ?_, ?_, ?_, by decide, by decide⟩
  · intro n p hmem hnd
    exact List.mem_map.mpr ⟨(n, p), List.mem_filter.mpr ⟨hmem, hnd⟩, rfl⟩
  · intro n p hmem hnd
    refine List.mem_map.mpr ⟨(n, p), List.mem_filter.mpr ⟨hmem, ?_⟩, rfl⟩
    simp [hnd]
  · intro p hp
    obtain ⟨⟨n, p'⟩, hf, hpp⟩ := List.mem_map.mp hp
    obtain ⟨hmem, hcond⟩ := List.mem_filter.mp hf
    cases hpp
    exact ⟨n, hmem, by simpa using hcond⟩
  · intro p hp
    obtain ⟨⟨n, p'⟩, hf, hpp⟩ := List.mem_map.mp hp
    obtain ⟨hmem, hcond⟩ := List.mem_filter.mp hf
    cases hpp
    exact ⟨n, hmem, hcond⟩
  · intro n p hmem
    exact List.mem_map.mpr ⟨(n, p), hmem, rfl⟩

/-- Concrete parameter lists for the C8 witness. -/
def plmW : List (String × Nat) :=
  [("encoder.layer.0.bias", 0), ("encoder.layer.0.weight", 1)]

/-- Concrete task-head parameter list for the C8 witness. -/
def taskW : List (String × Nat) := [("head.out", 2)]

/-- Witness for C8 at concrete parameter lists. -/
theorem grouped_param_groups_witness :
    ∃ g0 g1 g2, grouped_param ⟨1, 2, 3⟩ plmW taskW = [g0, g1, g2] ∧
      (grouped_param ⟨1, 2, 3⟩ plmW taskW).length = 3 ∧
      g0.lr = (⟨1, 2, 3⟩ : OptimCfg).plm_learning_rate ∧
      g0.weight_decay = (⟨1, 2, 3⟩ : OptimCfg).adam_weight_decay ∧
      g1.lr = (⟨1, 2, 3⟩ : OptimCfg).plm_learning_rate ∧ g1.weight_decay = 0 ∧
      g2.lr = (⟨1, 2, 3⟩ : OptimCfg).task_learning_rate ∧
      g2.weight_decay = 0 ∧
      (∀ n p, (n, p) ∈ plmW → matchesNoDecay n = true → p ∈ g1.params) ∧
      (∀ n p, (n, p) ∈ plmW → matchesNoDecay n = false → p ∈ g0.params) ∧
      (∀ p, p ∈ g0.params → ∃ n, (n, p) ∈ plmW ∧ matchesNoDecay n = false) ∧
      (∀ p, p ∈ g1.params → ∃ n, (n, p) ∈ plmW ∧ matchesNoDecay n = true) ∧
      (∀ n p, (n, p) ∈ taskW → p ∈ g2.params) ∧
      matchesNoDecay "encoder.layer.0.bias" = true ∧
      matchesNoDecay "encoder.layer.0.weight" = false :=
  grouped_param_groups ⟨1, 2, 3⟩ plmW taskW

end Optim

namespace Ckpt

/-- Payload written by `torch.save` in `Runner.save_model_checkpoint`
(`src/util/runner.py`, lines 303-307), with the optimizer/scheduler state
dicts abstract. -/
structure CheckpointRecord (O S : Type) where
  current_epoch : Int
  optimizer_state_dict : O
  scheduler_state_dict : S

/-- Observable outcome of `Runner.load_model_checkpoint` for optimizer,
scheduler and returned epoch: `none` means the corresponding state was left
untouched. -/
structure LoadResult (O S : Type) where
  optimizer : Option O
  scheduler : Option S
  epoch : Int

/-- `Runner.save_model_checkpoint` (lines 301-310): writes the record to
the path `log_dir/model_<name_suffix>_<step>.bin` built by its f-string; a
later write to the same path wins, modelled by prepending.  (The model weights are saved separately by
`wrapper.model.save_pretrained(log_dir)`; their loading is modelled in the
`LoadCkpt` namespace.) -/
def save_model_checkpoint {O S : Type}
    (store : List (String × CheckpointRecord O S))
    (log_dir name_suffix : String) (optimizer_state : O) (scheduler_state : S)
    (step : Nat) (current_epoch : Int) :
    List (String × CheckpointRecord O S) :=
  (log_dir ++ "/model_" ++ name_suffix ++ "_" ++ toString step ++ ".bin",
    ⟨current_epoch, optimizer_state, scheduler_state⟩) :: store

/-- Optimizer/scheduler/epoch part of `Runner.load_model_checkpoint` (lines
321-337): with `continue_training` the checkpoint file is read with
`torch.load` (which raises when the path is missing) and the optimizer and
scheduler are rebuilt and then overwritten from the saved state dicts, and
the saved epoch is returned; without it nothing is restored and the sentinel
epoch -1 is returned. -/
def load_model_checkpoint {O S : Type}
    (store : List (String × CheckpointRecord O S))
    (log_dir suffix : String) (continue_training : Bool) :
    Except String (LoadResult O S) :=
  if continue_training then
    match store.lookup (log_dir ++ "/model_" ++ suffix ++ ".bin") with
    | some c => .ok ⟨some c.optimizer_state_dict, some c.scheduler_state_dict,
        c.current_epoch⟩
    | none => .error "no such checkpoint file"
  else
    .ok ⟨none, none, -1⟩

/--
C9: a save-then-load round trip.  Loading the checkpoint just saved at
`step`/`epoch` with `continue_training = true` restores exactly the saved
optimizer and scheduler state and returns the saved epoch; loading it with
`continue_training = false` restores neither and returns the sentinel
epoch -1.
-/
theorem save_load_round_trip {O S : Type}
    (store : List (String × CheckpointRecord O S))
    (log_dir name_suffix : String) (optimizer_state : O) (scheduler_state : S)
    (step : Nat) (current_epoch : Int) :
    load_model_checkpoint
        (save_model_checkpoint store log_dir name_suffix optimizer_state
          scheduler_state step current_epoch)
        log_dir (name_suffix ++ "_" ++ toString step) true
      = .ok ⟨some optimizer_state, some scheduler_state, current_epoch⟩ ∧
    load_model_checkpoint
        (save_model_checkpoint store log_dir name_suffix optimizer_state
          scheduler_state step current_epoch)
        log_dir (name_suffix ++ "_" ++ toString step) false
      = .ok ⟨none, none, -1⟩ := by
  have hkey : log_dir ++ "/model_" ++ (name_suffix ++ "_" ++ toString step)
        ++ ".bin"
      = log_dir ++ "/model_" ++ name_suffix ++ "_" ++ toString step
        ++ ".bin" := by
    simp [String.append_assoc]
  constructor
  · simp [load_model_checkpoint, save_model_checkpoint, hkey,
      List.lookup_cons]
  · rfl

end Ckpt

namespace LoadCkpt

/-- File-system and model-hub environment seen by the weight-loading part of
`Runner.load_model_checkpoint`: `pathExists` is `os.path.exists` and
`fromPretrained` is `model.from_pretrained`, which either resolves an
identifier or directory to weights (abstracted as a number) or raises. -/
structure LoadEnv where
  pathExists : String → Bool
  fromPretrained : String → Option Nat

/-- `path_ckpt` of line 313. -/
def ckpt_path (log_dir suffix : String) : String :=
  log_dir ++ "/model_" ++ suffix ++ ".bin"

/-- Identifier handed to `from_pretrained` by lines 315-320: when the
step-qualified checkpoint file does NOT exist, the raw `suffix` is used as an
external pretrained-model identifier; when it DOES exist, weights are read
from the run's log directory (where `save_model_checkpoint` had the wrapper
serialise them) — never from the `.bin` path itself, which holds only
optimizer/scheduler state. -/
def weights_source (env : LoadEnv) (log_dir suffix : String) : String :=
  if env.pathExists (ckpt_path log_dir suffix) = false then suffix else log_dir

/-- Weight loading of `Runner.load_model_checkpoint` (lines 315-320):
`from_pretrained` raises when its identifier resolves to nothing. -/
def load_weights (env : LoadEnv) (log_dir suffix : String) :
    Except String Nat :=
  match env.fromPretrained (weights_source env log_dir suffix) with
  | some w => .ok w
  | none => .error "missing checkpoint"

/-- Environment in which exactly the checkpoint file `logs/model_X.bin`
exists. -/
def envX : LoadEnv where
  pathExists := fun p => p == "logs/model_X.bin"
  fromPretrained := fun d => if d == "logs" then some 7 else none

/--
C5 counterexample: with the step-qualified path `logs/model_X.bin` present,
`load_model_checkpoint` does NOT resolve weights from that path — it reads
them from the log directory `"logs"` — so "resolves model weights from the
step-qualified checkpoint path when that path exists" fails, and the log
directory is used precisely when the path exists rather than as a fallback
when it does not.
-/
theorem weights_not_from_ckpt_path_cex :
    envX.pathExists (ckpt_path "logs" "X") = true ∧
    weights_source envX "logs" "X" = "logs" ∧
    ¬ (weights_source envX "logs" "X" = ckpt_path "logs" "X") := by
  exact ⟨by decide, by decide, by decide⟩

/--
C5 amended: when the step-qualified checkpoint path exists, weights are
loaded from the run's log directory; only when it does not exist is the
suffix treated as an external pretrained-model identifier; and whenever the
identifier actually consulted (the suffix in the first case, the log
directory in the second) resolves to no weights, loading fails with a
missing-checkpoint error rather than silently succeeding as a no-op.
-/
theorem load_weights_resolution (env : LoadEnv) (log_dir suffix : String) :
    (env.pathExists (ckpt_path log_dir suffix) = true →
      weights_source env log_dir suffix = log_dir) ∧
    (env.pathExists (ckpt_path log_dir suffix) = false →
      weights_source env log_dir suffix = suffix) ∧
    (env.pathExists (ckpt_path log_dir suffix) = false →
      env.fromPretrained suffix = none →
      load_weights env log_dir suffix = .error "missing checkpoint") ∧
    (env.pathExists (ckpt_path log_dir suffix) = true →
      env.fromPretrained log_dir = none →
      load_weights env log_dir suffix = .error "missing checkpoint") := by
  refine ⟨?_, ?_, ?_, ?_⟩
  · intro hex
    unfold weights_source
    rw [hex]
    simp
  · intro hex
    unfold weights_source
    rw [hex]
    simp
  · intro hex hnone
    unfold load_weights weights_source
    rw [hex]
    simp [hnone]
  · intro hex hnone
    unfold load_weights weights_source
    rw [hex]
    simp [hnone]

/-- Environment with no checkpoint file and nothing resolvable: empty log
directory and a suffix that is not a valid pretrained-model identifier. -/
def envEmpty : LoadEnv where
  pathExists := fun _ => false
  fromPretrained := fun _ => none

/-- Witness for the amended C5: suffix `"X"` with no `model_X.bin` and an
empty log directory fails with a missing-checkpoint error. -/
theorem load_weights_resolution_witness :
    (envEmpty.pathExists (ckpt_path "logs" "X") = false ∧
      envEmpty.fromPretrained "X" = none) ∧
    load_weights envEmpty "logs" "X" = .error "missing checkpoint" :=
  ⟨⟨rfl, rfl⟩, (load_weights_resolution envEmpty "logs" "X").2.2.1 rfl rfl⟩

end LoadCkpt

namespace TaskDispatch

/-- Python `str.lower` on the ASCII range, character-wise. -/
def toLowerChar (c : Char) : Char :=
  if c.isUpper then Char.ofNat (c.toNat + 32) else c

/-- Python `str.lower` for the task identifiers at hand. -/
def pyLower (s : String) : String := String.mk (s.data.map toLowerChar)

/-- Marker for the task-specific attribute triple set by `Runner.__init__`
(`src/util/runner.py`, lines 70-81): `self.data`, `self.collate_fn` and
`self.wrapper_class_fn` are assigned together in each recognised branch, so
one marker stands for all three. -/
inductive TaskData where
  | coref
  | ner
  | ere
deriving DecidableEq

/-- Dispatch of lines 70-81: an if/elif/elif chain on
`config['task'].lower()` with NO else branch. -/
def recognizedTask (task : String) : Option TaskData :=
  if pyLower task = "coref" then some TaskData.coref
  else if pyLower task = "ner" then some TaskData.ner
  else if pyLower task = "ere" then some TaskData.ere
  else none

/-- Attributes of the constructed `Runner` relevant to the dispatch:
`none` means the attribute was never assigned. -/
structure RunnerAttrs where
  data : Option TaskData

/-- Task-dispatch part of `Runner.__init__`: the constructor always runs to
completion and returns a `Runner`; an unrecognised task merely leaves the
task-specific attributes unset. -/
def runnerInit (task : String) : RunnerAttrs :=
  { data := recognizedTask task }

/--
C6 counterexample: `"srl"` is none of the recognised tasks, yet `Runner`
construction does not fail — it returns a `Runner` whose task-specific
attributes were never assigned, i.e. an incompletely initialised object
whose failure only surfaces later on attribute access.
-/
theorem unknown_task_no_failure_cex :
    (pyLower "srl" = "coref" → False) ∧
    (pyLower "srl" = "ner" → False) ∧
    (pyLower "srl" = "ere" → False) ∧
    (runnerInit "srl").data = none := by
  exact ⟨by decide, by decide, by decide, by decide⟩

/--
C6 amended: for every task identifier whose lower-cased form is none of
`coref`, `ner`, `ere`, `Runner.__init__` completes without error and returns
a `Runner` whose task-specific attributes (`data`, `collate_fn`,
`wrapper_class_fn`) were never set; there is no fatal startup error.
-/
theorem unknown_task_attrs_unset (task : String)
    (h1 : ¬ pyLower task = "coref") (h2 : ¬ pyLower task = "ner")
    (h3 : ¬ pyLower task = "ere") :
    (runnerInit task).data = none := by
  unfold runnerInit recognizedTask
  simp [h1, h2, h3]

/-- Witness for the amended C6 at the unrecognised task `"srl"`. -/
theorem unknown_task_attrs_unset_witness :
    (¬ pyLower "srl" = "coref") ∧ (¬ pyLower "srl" = "ner") ∧
    (¬ pyLower "srl" = "ere") ∧ (runnerInit "srl").data = none :=
  ⟨by decide, by decide, by decide,
   unknown_task_attrs_unset "srl" (by decide) (by decide) (by decide)⟩

end TaskDispatch

namespace PostLoop

/-- Python runtime value relevant to the suffix computation of line 230. -/
inductive PyVal where
  | str (s : String)
  | int (i : Int)

/-- Python binary `+` on these values: concatenation on two strings,
addition on two ints, and a raised `TypeError` on a str/int mix. -/
def pyAdd : PyVal → PyVal → Except String PyVal
  | .str a, .str b => .ok (.str (a ++ b))
  | .int a, .int b => .ok (.int (a + b))
  | _, _ => .error "TypeError"

/-- The expression `self.name_suffix + "_" + best_ckpt_step_count` of line
230.  `name_suffix` is a `str` (line 50) while `best_ckpt_step_count` is an
`int`: it is initialised to 0 at line 129 and only ever reassigned from
`self.scheduler._step_count` (line 208), which torch keeps as an `int`; the
code never converts it with `str(...)`. -/
def bestSuffix (name_suffix : String) (best_ckpt_step_count : Int) :
    Except String PyVal := do
  let a ← pyAdd (.str name_suffix) (.str "_")
  pyAdd a (.int best_ckpt_step_count)

/-- Post-epoch-loop sequence of lines 229-241: reload the best checkpoint
keyed by the suffix of line 230, then evaluate the test, seen-test,
unseen-test and train splits in that order, writing a
JSON file holding the metrics report under the single key "test_metrics"
for the first three splits only (the train
split of line 241 is evaluated but its metrics are discarded).  The returned
list is the metric files written, in order. -/
def postLoopMetricFiles (name_suffix : String) (best_ckpt_step_count : Int) :
    Except String (List String) := do
  let _ ← bestSuffix name_suffix best_ckpt_step_count
  pure ["metrics.json", "metricsSeen.json", "metricsUnseen.json"]

/--
C7: the post-loop reload of the best checkpoint never happens: line 230
concatenates the string `name_suffix + "_"` with the integer
`best_ckpt_step_count`, which raises `TypeError` in Python for every run, so
none of the final evaluations or metric writes is reached.
-/
theorem post_loop_type_error (name_suffix : String)
    (best_ckpt_step_count : Int) :
    postLoopMetricFiles name_suffix best_ckpt_step_count
      = .error "TypeError" := rfl

end PostLoop

end ASP
